import Mathlib

/-!
Shallow embedding of `src/struts_migration.py` (Struts 2.x → 6.x migration
utility): size-string parsing, per-file dispatch, batch processing,
file discovery, configuration validation, backup/rollback over a model
filesystem, and report generation.  Each definition mirrors one Python
function of the source; theorems check the specification's claims.
-/

/-! ## Size-string parsing (`parse_size`, lines 234–239) -/

/-- The value of a list of decimal digit characters, as Python
`int(''.join(ds))` computes it. -/
def natOfDigits (cs : List Char) : Nat :=
  cs.foldl (fun n c => n * 10 + (c.toNat - '0'.toNat)) 0

/-- The `units` dictionary of `parse_size`: `{'B': 1, 'KB': 1024,
'MB': 1024*1024, 'GB': 1024*1024*1024}`; `none` models a `KeyError`. -/
def unitsTable (u : String) : Option Nat :=
  if u = "B" then some 1
  else if u = "KB" then some 1024
  else if u = "MB" then some (1024 * 1024)
  else if u = "GB" then some (1024 * 1024 * 1024)
  else none

/-- The unit `''.join(filter(str.isalpha, size_str.upper()))` extracts:
upper-case every character, keep the alphabetic ones. -/
def unitOf (s : String) : String :=
  String.mk ((s.toList.map Char.toUpper).filter Char.isAlpha)

/-- `parse_size` (lines 234–239): the digit characters of the string form the
number, the alphabetic characters of its upper-casing form the unit; the
result is `number * units[unit]`.  `int('')` raises `ValueError` when the
string holds no digit; a unit outside the table raises `KeyError`. -/
def parse_size (s : String) : Except String Nat :=
  let ds := s.toList.filter Char.isDigit
  if ds.isEmpty then
    Except.error "ValueError: invalid literal for int()"
  else
    match unitsTable (unitOf s) with
    | some m => Except.ok (natOfDigits ds * m)
    | none => Except.error ("KeyError: " ++ unitOf s)

/-! ## Per-file dispatch (`FileProcessor._process_file`, lines 137–148) -/

/-- Index of the last `'.'` in a list of characters, Python `str.rfind('.')`
restricted to a found result (`none` for Python's `-1`). -/
def rfindDot : List Char → Option Nat
  | [] => none
  | c :: cs =>
    match rfindDot cs with
    | some i => some (i + 1)
    | none => if c = '.' then some 0 else none

/-- The characters after the last `'/'`: the path's final component,
`PurePath.name` for the simple relative paths the migration handles. -/
def lastComponent (cs : List Char) : List Char :=
  cs.foldl (fun acc c => if c = '/' then [] else acc ++ [c]) []

/-- `pathlib.PurePath.suffix`: the extension of the path's final component;
`''` when the last dot is absent, at position 0 (hidden file) or at the
very end (`0 < i < len(name) - 1` in CPython's property). -/
def pathSuffix (p : String) : String :=
  let name := lastComponent p.toList
  match rfindDot name with
  | none => ""
  | some i =>
    if 0 < i ∧ i < name.length - 1 then String.mk (name.drop i) else ""

/-- `_process_file` (lines 137–148): dispatch on the path's suffix to the
Java/XML/JSP transformer; any other suffix falls through the `if` chain and
nothing runs.  A transformer failure is logged
(`Error processing {file}: {e}`) and re-raised.  The result pairs the
outcome with the log lines this call emitted. -/
def processFile (java xml jsp : String → Except String Unit) (p : String) :
    Except String Unit × List String :=
  let r :=
    if pathSuffix p = ".java" then java p
    else if pathSuffix p = ".xml" then xml p
    else if pathSuffix p = ".jsp" then jsp p
    else Except.ok ()
  match r with
  | Except.ok _ => (Except.ok (), [])
  | Except.error e => (Except.error e, ["Error processing " ++ p ++ ": " ++ e])

/-! ## Batch dispatch (`FileProcessor.process_files`, lines 107–122) -/

/-- The batches `range(0, len(l), bs)` with slicing `l[i:i+bs]` produces,
computed with `l.length` as fuel (each step consumes at least one element
when `1 ≤ bs`, so the fuel never runs out on the slices the loop visits). -/
def chunksAux (bs : Nat) : Nat → List α → List (List α)
  | _, [] => []
  | 0, _ :: _ => []
  | fuel + 1, x :: xs => (x :: xs).take bs :: chunksAux bs fuel ((x :: xs).drop bs)

/-- The batch decomposition of `process_files`: consecutive slices of length
`bs` (the last possibly shorter). -/
def chunks (bs : Nat) (l : List α) : List (List α) :=
  chunksAux bs l.length l

/-- One batch of `process_files` (lines 114–122): every file of the batch is
submitted (`executor.submit(self._process_file, file)`), then each future's
result is collected in order; an exception from a future is caught and
logged as `Error processing file: {e}`.  Returns the per-file outcomes in
submission order and the log: the task-side lines followed by the
collection-loop lines. -/
def batchRun (pf : String → Except String Unit × List String)
    (batch : List String) : List (String × Except String Unit) × List String :=
  let results := batch.map (fun f => (f, pf f))
  (results.map (fun r => (r.1, r.2.1)),
    (results.map (fun r => r.2.2)).flatten ++
      results.filterMap (fun r =>
        match r.2.1 with
        | Except.ok _ => none
        | Except.error e => some ("Error processing file: " ++ e)))

/-- The sequential loop over batches of `process_files`. -/
def runBatches (pf : String → Except String Unit × List String) :
    List (List String) → List (String × Except String Unit) × List String
  | [] => ([], [])
  | b :: rest =>
    let br := batchRun pf b
    let rr := runBatches pf rest
    (br.1 ++ rr.1, br.2 ++ rr.2)

/-- `process_files` (lines 107–122): partition the discovered files into
batches of `batch_size` and run the batches sequentially.  The function is
total: per-file failures are caught inside the loop and never escape. -/
def processFiles (pf : String → Except String Unit × List String)
    (bs : Nat) (files : List String) :
    List (String × Except String Unit) × List String :=
  runBatches pf (chunks bs files)

/-! ## File discovery (`FileProcessor._gather_files`, lines 124–135) -/

/-- The inclusion loop of `_gather_files`:
`for pattern in include_patterns: files.extend(self.context.base_dir.glob(pattern))`. -/
def includeFiles (glob : String → List String) : List String → List String
  | [] => []
  | p :: ps => glob p ++ includeFiles glob ps

/-- The exclusion loop of `_gather_files`:
`for pattern in exclude_patterns: files = [f for f in files if not f.match(pattern)]`. -/
def applyExcludes (m : String → String → Bool) :
    List String → List String → List String
  | fs, [] => fs
  | fs, q :: qs => applyExcludes m (fs.filter (fun f => !(m f q))) qs

/-- `_gather_files` (lines 124–135), parametrised by the filesystem's glob
expansion and `PurePath.match`: concatenate the matches of every inclusion
pattern, then filter out the files matching any exclusion pattern.  The
source neither deduplicates nor sorts the list. -/
def gatherFiles (glob : String → List String) (m : String → String → Bool)
    (inc exc : List String) : List String :=
  applyExcludes m (includeFiles glob inc) exc

/-- A glob matcher for single-component patterns (`*` any run of characters,
`?` one character), the semantics `Path.glob`/`Path.match` give a pattern
and a file name without separators; `fuel` bounds the recursion (every step
shrinks pattern or text, so `|pattern| + |text| + 1` always suffices). -/
def globMatchAux : Nat → List Char → List Char → Bool
  | 0, _, _ => false
  | _ + 1, [], [] => true
  | fuel + 1, '*' :: ps, [] => globMatchAux fuel ps []
  | _ + 1, _ :: _, [] => false
  | _ + 1, [], _ :: _ => false
  | fuel + 1, '?' :: ps, _ :: cs => globMatchAux fuel ps cs
  | fuel + 1, '*' :: ps, c :: cs =>
    globMatchAux fuel ps (c :: cs) || globMatchAux fuel ('*' :: ps) cs
  | fuel + 1, p :: ps, c :: cs => p = c && globMatchAux fuel ps cs

/-- The glob matcher with enough fuel for its two lists. -/
def globMatch (ps cs : List Char) : Bool :=
  globMatchAux (ps.length + cs.length + 1) ps cs

/-! ## Configuration validation (`ConfigurationManager`, lines 23–45) -/

/-- `required_sections` (line 42). -/
def requiredSections : List String :=
  ["paths", "files", "patterns", "migration", "logging"]

/-- The loop of `_validate_config` (lines 43–45) over a remaining list of
required sections: the first section absent from the configuration's keys
raises `ValueError`. -/
def validateLoop (keys : List String) : List String → Except String Unit
  | [] => Except.ok ()
  | s :: rest =>
    if keys.contains s then validateLoop keys rest
    else Except.error ("Missing required configuration section: " ++ s)

/-- `_validate_config` (lines 40–45), on the configuration's top-level keys. -/
def validateConfig (keys : List String) : Except String Unit :=
  validateLoop keys requiredSections

/-- `ConfigurationManager.__init__` (lines 25–28) runs validation before the
rest of `MigrationManager` is built, so the whole run only proceeds when
validation succeeded; `proc` stands for everything that follows
construction (path updates, context building, `execute_migration`). -/
def runMigrationPipeline (proc : α → Except String Unit × α)
    (keys : List String) (st : α) : Except String Unit × α :=
  match validateConfig keys with
  | Except.error e => (Except.error e, st)
  | Except.ok _ => proc st

/-! ## Model filesystem for backup and rollback
(`PathManager.create_backup_directory` lines 96–99,
`MigrationManager._rollback` lines 226–231,
`MigrationManager.execute_migration` lines 184–207) -/

/-- `isPref p q`: path `p` (a list of components) is an ancestor of, or
equal to, path `q`. -/
def isPref : List String → List String → Bool
  | [], _ => true
  | _ :: _, [] => false
  | a :: as, b :: bs => a = b && isPref as bs

/-- A directory tree: regular files (component path, byte content) and the
directories created explicitly (`mkdir`); ancestors of either exist
implicitly. -/
structure FS where
  files : List (List String × String)
  dirs : List (List String)
deriving DecidableEq, Repr

/-- `Path.exists()`: the path is a recorded file or directory, or an
ancestor of one. -/
def FS.pathExists (fs : FS) (p : List String) : Bool :=
  fs.files.any (fun e => isPref p e.1) || fs.dirs.any (fun d => isPref p d)

/-- `Path.mkdir(parents=True, exist_ok=True)`: record the directory; with
both flags set it does not fail. -/
def FS.mkdirp (fs : FS) (p : List String) : FS :=
  { fs with dirs := fs.dirs ++ [p] }

/-- `shutil.rmtree(p)`: delete `p` and everything below it;
`FileNotFoundError` when `p` does not exist. -/
def FS.rmtree (fs : FS) (p : List String) : Except String FS :=
  if fs.pathExists p then
    Except.ok
      { files := fs.files.filter (fun e => !(isPref p e.1)),
        dirs := fs.dirs.filter (fun d => !(isPref p d)) }
  else
    Except.error ("FileNotFoundError: " ++ String.intercalate "/" p)

/-- `shutil.copytree(src, dst)`: `FileNotFoundError` when `src` does not
exist, `FileExistsError` when `dst` already does; otherwise every file and
directory below `src` reappears below `dst`. -/
def FS.copytree (fs : FS) (src dst : List String) : Except String FS :=
  if !(fs.pathExists src) then
    Except.error ("FileNotFoundError: " ++ String.intercalate "/" src)
  else if fs.pathExists dst then
    Except.error ("FileExistsError: " ++ String.intercalate "/" dst)
  else
    Except.ok
      { files := fs.files ++
          (fs.files.filter (fun e => isPref src e.1)).map
            (fun e => (dst ++ e.1.drop src.length, e.2)),
        dirs := fs.dirs ++ [dst] ++
          (fs.dirs.filter (fun d => isPref src d)).map
            (fun d => dst ++ d.drop src.length) }

/-- The files at or below `p`, with their paths relative to `p`: the
content a directory tree holds. -/
def FS.treeAt (fs : FS) (p : List String) : List (List String × String) :=
  (fs.files.filter (fun e => isPref p e.1)).map
    (fun e => (e.1.drop p.length, e.2))

/-- `create_backup_directory` (lines 96–99): when backups are enabled, make
the backup directory; nothing else happens — in particular no file is
copied into it. -/
def createBackupDirectory (backupEnabled : Bool) (backup : List String)
    (fs : FS) : FS :=
  if backupEnabled then fs.mkdirp backup else fs

/-- `_rollback` (lines 226–231): when the backup directory exists, delete
the base tree and copy the backup tree to the base path.  The pair holds
the outcome (an error from `rmtree`/`copytree` propagates) and the
filesystem as the call leaves it — a failing `copytree` does not undo the
`rmtree` that already ran. -/
def rollback (base backup : List String) (fs : FS) :
    Except String Unit × FS :=
  if fs.pathExists backup then
    match fs.rmtree base with
    | Except.error e => (Except.error e, fs)
    | Except.ok fs1 =>
      match fs1.copytree backup base with
      | Except.error e => (Except.error e, fs1)
      | Except.ok fs2 => (Except.ok (), fs2)
  else (Except.ok (), fs)

/-- The `except` block of `execute_migration` (lines 203–207): the failure
`e` is logged; when rollback is enabled `_rollback()` runs, and the bare
`raise` then re-raises the original error — unless `_rollback` itself
raised, in which case that error is what propagates.  Returns the error
the caller sees and the final filesystem. -/
def handleFailure (rollbackEnabled : Bool) (base backup : List String)
    (e : String) (fs : FS) : String × FS :=
  if rollbackEnabled then
    match rollback base backup fs with
    | (Except.ok _, fs1) => (e, fs1)
    | (Except.error e2, fs1) => (e2, fs1)
  else (e, fs)

/-! ## Report generation (`MigrationManager._generate_report`, lines 210–224) -/

/-- The `details` object of the report dictionary (lines 216–219).  The
source stores the literals `0` and `[]` (its comments say
`# Add actual counts`, `# Add actual errors`); no run outcome reaches this
function. -/
structure ReportDetails where
  files_processed : Nat
  errors : List String
deriving DecidableEq, Repr

/-- The report dictionary of `_generate_report` (lines 212–220). -/
structure RunReport where
  timestamp : String
  project : String
  status : String
  details : ReportDetails
deriving DecidableEq, Repr

/-- `_generate_report` (lines 210–224), the dictionary it builds: status is
the literal `'completed'`, `files_processed` the literal `0`, `errors` the
literal `[]`, whatever the run did.  (Persisting it would in fact raise
`NameError`: the module never imports `json`, which line 224 uses.) -/
def generateReport (timestamp project : String) : RunReport :=
  { timestamp := timestamp, project := project, status := "completed",
    details := { files_processed := 0, errors := [] } }

/-! ## Helper lemmas -/

lemma chunksAux_flatten {α : Type} (bs : Nat) (hbs : 0 < bs) :
    ∀ (fuel : Nat) (l : List α), l.length ≤ fuel →
      (chunksAux bs fuel l).flatten = l := by
  intro fuel
  induction fuel with
  | zero =>
    intro l hl
    cases l with
    | nil => rfl
    | cons x xs => simp at hl
  | succ n ih =>
    intro l hl
    cases l with
    | nil => rfl
    | cons x xs =>
      show ((x :: xs).take bs :: chunksAux bs n ((x :: xs).drop bs)).flatten
          = x :: xs
      rw [List.flatten_cons, ih]
      · exact List.take_append_drop bs (x :: xs)
      · rw [List.length_drop]
        simp only [List.length_cons] at hl ⊢
        omega

lemma chunksAux_length {α : Type} (bs : Nat) (hbs : 0 < bs) :
    ∀ (fuel : Nat) (l : List α), l.length ≤ fuel →
      (chunksAux bs fuel l).length = (l.length + bs - 1) / bs := by
  intro fuel
  induction fuel with
  | zero =>
    intro l hl
    cases l with
    | nil =>
      show 0 = (0 + bs - 1) / bs
      rw [Nat.zero_add, Nat.div_eq_of_lt (by omega)]
    | cons x xs => simp at hl
  | succ n ih =>
    intro l hl
    cases l with
    | nil =>
      show 0 = (0 + bs - 1) / bs
      rw [Nat.zero_add, Nat.div_eq_of_lt (by omega)]
    | cons x xs =>
      show (chunksAux bs n ((x :: xs).drop bs)).length + 1
          = ((x :: xs).length + bs - 1) / bs
      rw [ih ((x :: xs).drop bs)
        (by rw [List.length_drop]; simp only [List.length_cons] at hl ⊢; omega)]
      rw [List.length_drop]
      simp only [List.length_cons]
      have h1 : xs.length + 1 + bs - 1 = xs.length + bs := by omega
      rw [h1, Nat.add_div_right _ hbs]
      by_cases hc : xs.length + 1 ≤ bs
      · have h2 : xs.length + 1 - bs = 0 := by omega
        rw [h2, Nat.zero_add, Nat.div_eq_of_lt (by omega),
          Nat.div_eq_of_lt (by omega)]
      · have h2 : xs.length + 1 - bs + bs - 1 = xs.length - bs + bs := by omega
        rw [h2, Nat.add_div_right _ hbs]
        have h3 : xs.length = xs.length - bs + bs := by omega
        conv_rhs => rw [h3]
        rw [Nat.add_div_right _ hbs]

lemma chunksAux_getElem {α : Type} (bs : Nat) (hbs : 0 < bs) :
    ∀ (fuel : Nat) (l : List α) (i : Nat)
      (hfuel : l.length ≤ fuel) (hi : i < (chunksAux bs fuel l).length),
      (chunksAux bs fuel l)[i] = (l.drop (i * bs)).take bs := by
  intro fuel
  induction fuel with
  | zero =>
    intro l i hfuel hi
    cases l with
    | nil => simp [chunksAux] at hi
    | cons x xs => exact absurd hfuel (by simp)
  | succ n ih =>
    intro l i hfuel hi
    cases l with
    | nil => simp [chunksAux] at hi
    | cons x xs =>
      cases i with
      | zero => simp [chunksAux]
      | succ j =>
        have hj : j < (chunksAux bs n ((x :: xs).drop bs)).length := by
          simp only [chunksAux, List.length_cons] at hi
          omega
        have hstep : (chunksAux bs (n + 1) (x :: xs))[j + 1]
            = (chunksAux bs n ((x :: xs).drop bs))[j] := rfl
        rw [hstep, ih ((x :: xs).drop bs) j
          (by rw [List.length_drop]; simp only [List.length_cons] at hfuel ⊢; omega)
          hj]
        rw [List.drop_drop]
        congr 2
        ring

lemma batchRun_fst (pf : String → Except String Unit × List String)
    (b : List String) :
    (batchRun pf b).1 = b.map (fun f => (f, (pf f).1)) := by
  simp [batchRun, List.map_map, Function.comp]

lemma runBatches_fst (pf : String → Except String Unit × List String) :
    ∀ cs : List (List String),
      (runBatches pf cs).1 = cs.flatten.map (fun f => (f, (pf f).1))
  | [] => rfl
  | b :: rest => by
    show (batchRun pf b).1 ++ (runBatches pf rest).1 = _
    rw [batchRun_fst, runBatches_fst pf rest, List.flatten_cons, List.map_append]

lemma runBatches_log_mem (pf : String → Except String Unit × List String)
    (f : String) (e : String) (he : (pf f).1 = Except.error e) :
    ∀ cs : List (List String), f ∈ cs.flatten →
      ("Error processing file: " ++ e) ∈ (runBatches pf cs).2
  | [], hf => by simp at hf
  | b :: rest, hf => by
    rw [List.flatten_cons, List.mem_append] at hf
    show _ ∈ (batchRun pf b).2 ++ (runBatches pf rest).2
    rw [List.mem_append]
    rcases hf with hf | hf
    · left
      show _ ∈ (List.map _ _).flatten ++ List.filterMap _ _
      rw [List.mem_append]
      right
      rw [List.mem_filterMap]
      refine ⟨(f, pf f), List.mem_map_of_mem _ hf, ?_⟩
      show (match (pf f).1 with
        | Except.ok _ => none
        | Except.error e => some ("Error processing file: " ++ e)) = _
      rw [he]
    · right
      exact runBatches_log_mem pf f e he rest hf

lemma processFiles_fst (pf : String → Except String Unit × List String)
    (bs : Nat) (files : List String) (hbs : 0 < bs) :
    (processFiles pf bs files).1 = files.map (fun f => (f, (pf f).1)) := by
  rw [processFiles, runBatches_fst, chunks,
    chunksAux_flatten bs hbs files.length files (Nat.le_refl _)]

lemma mem_includeFiles (glob : String → List String) (f : String) :
    ∀ ps : List String,
      f ∈ includeFiles glob ps ↔ ∃ p ∈ ps, f ∈ glob p
  | [] => by simp [includeFiles]
  | p :: ps => by
    rw [includeFiles, List.mem_append, mem_includeFiles glob f ps]
    simp

lemma mem_applyExcludes (m : String → String → Bool) (f : String) :
    ∀ (qs fs : List String),
      f ∈ applyExcludes m fs qs ↔ f ∈ fs ∧ ∀ q ∈ qs, m f q = false
  | [], fs => by simp [applyExcludes]
  | q :: qs, fs => by
    rw [applyExcludes, mem_applyExcludes m f qs, List.mem_filter]
    constructor
    · rintro ⟨⟨hfs, hq⟩, hqs⟩
      refine ⟨hfs, ?_⟩
      intro q2 hq2
      rcases List.mem_cons.mp hq2 with h | h
      · subst h; simpa using hq
      · exact hqs q2 h
    · rintro ⟨hfs, hall⟩
      refine ⟨⟨hfs, ?_⟩, fun q2 h => hall q2 (List.mem_cons_of_mem _ h)⟩
      simpa using hall q (List.mem_cons_self q qs)

lemma validateLoop_error (keys : List String) :
    ∀ l : List String, (∃ s ∈ l, keys.contains s = false) →
      ∃ s2, s2 ∈ l ∧ keys.contains s2 = false ∧
        validateLoop keys l =
          Except.error ("Missing required configuration section: " ++ s2)
  | [], h => by simp at h
  | s :: rest, h => by
    by_cases hs : keys.contains s
    · have hrest : ∃ t ∈ rest, keys.contains t = false := by
        rcases h with ⟨t, ht, hct⟩
        rcases List.mem_cons.mp ht with rfl | ht2
        · rw [hs] at hct; cases hct
        · exact ⟨t, ht2, hct⟩
      rcases validateLoop_error keys rest hrest with ⟨s2, hmem, hc, heq⟩
      refine ⟨s2, List.mem_cons_of_mem _ hmem, hc, ?_⟩
      rw [validateLoop, if_pos hs, heq]
    · refine ⟨s, List.mem_cons_self s rest, by simpa using hs, ?_⟩
      rw [validateLoop, if_neg hs]

lemma validateLoop_ok (keys : List String) :
    ∀ l : List String, (∀ s ∈ l, keys.contains s = true) →
      validateLoop keys l = Except.ok ()
  | [], _ => rfl
  | s :: rest, h => by
    rw [validateLoop, if_pos (h s (List.mem_cons_self s rest))]
    exact validateLoop_ok keys rest fun t ht => h t (List.mem_cons_of_mem _ ht)

/-- Equality of `Except` results is decidable componentwise; the concrete
examples below evaluate outcomes with it. -/
instance {ε α : Type} [DecidableEq ε] [DecidableEq α] : DecidableEq (Except ε α) :=
  fun a b =>
    match a, b with
    | Except.ok x, Except.ok y =>
      if h : x = y then isTrue (by rw [h])
      else isFalse (by intro hc; cases hc; exact h rfl)
    | Except.error x, Except.error y =>
      if h : x = y then isTrue (by rw [h])
      else isFalse (by intro hc; cases hc; exact h rfl)
    | Except.ok _, Except.error _ => isFalse (by intro hc; cases hc)
    | Except.error _, Except.ok _ => isFalse (by intro hc; cases hc)

/-! ## Concrete data shared by several examples -/

/-- A Java transformer that fails on `B.java` and succeeds elsewhere, the
test double the scenarios use. -/
def demoJava (f : String) : Except String Unit :=
  if f = "B.java" then Except.error "boom" else Except.ok ()

/-- A transformer that always succeeds. -/
def demoOk (_ : String) : Except String Unit := Except.ok ()

/-- The per-file processor of the scenarios: `_process_file` with the demo
transformers. -/
def demoPf : String → Except String Unit × List String :=
  processFile demoJava demoOk demoOk

/-- The 7-file scenario of the specification: 4 `.java`, 2 `.xml`,
1 unrecognized `.txt`. -/
def demoFiles7 : List String :=
  ["A.java", "B.java", "C.xml", "D.java", "E.java", "F.xml", "G.txt"]

/-- A flat directory for the discovery example. -/
def demoTree : List String := ["Foo.java", "Bar.xml"]

/-- Glob expansion over `demoTree`. -/
def demoGlob (p : String) : List String :=
  demoTree.filter (fun f => globMatch p.toList f.toList)

/-- `PurePath.match` over the same patterns. -/
def demoMatch (f p : String) : Bool := globMatch p.toList f.toList

/-- The filesystem before a run whose backup directory sits inside the base
directory (the layout `MigrationManager.__init__` line 178 produces for a
relative `paths.backup_dir`), with the snapshot already present. -/
def preRunFS : FS :=
  ⟨[(["proj", "src", "A.java"], "v1"),
    (["proj", "bak", "src", "A.java"], "v1")], [["proj", "bak"]]⟩

/-! ## The claims -/

/-- C1: the backup step is claimed to copy the whole base tree into the
backup directory; `create_backup_directory` only makes the (empty) backup
directory, so right after it runs the backup directory exists but holds no
file while the base tree does — the backup is no snapshot. -/
theorem C1_backup_step_copies_nothing :
    (createBackupDirectory true ["proj", "bak"]
        ⟨[(["proj", "A.java"], "v1")], []⟩).pathExists ["proj", "bak"] = true ∧
    (createBackupDirectory true ["proj", "bak"]
        ⟨[(["proj", "A.java"], "v1")], []⟩).treeAt ["proj", "bak"] = [] ∧
    (createBackupDirectory true ["proj", "bak"]
        ⟨[(["proj", "A.java"], "v1")], []⟩).treeAt ["proj"] ≠ [] := by
  decide

/-- C2: with the backup directory nested inside the base directory (the
layout the code builds), `_rollback` first removes the base tree — and with
it the snapshot — and the subsequent `copytree` fails, leaving the base
tree empty rather than byte-identical to the snapshot. -/
theorem C2_rollback_destroys_snapshot :
    (rollback ["proj"] ["proj", "bak"] preRunFS).1 =
      Except.error "FileNotFoundError: proj/bak" ∧
    (rollback ["proj"] ["proj", "bak"] preRunFS).2 = ⟨[], []⟩ ∧
    preRunFS.treeAt ["proj", "bak"] = [(["src", "A.java"], "v1")] ∧
    (rollback ["proj"] ["proj", "bak"] preRunFS).2.treeAt ["proj"] ≠
      preRunFS.treeAt ["proj", "bak"] := by
  decide

/-- C3: the claim says the persisted report records the run's actual file
count and error list; `_generate_report` stores the literals `0` and `[]`
for every run (and status `'completed'`), so the 7-file scenario's totals
never reach the report. -/
theorem C3_report_hardcodes_zero (ts proj : String) :
    (generateReport ts proj).details.files_processed = 0 ∧
    (generateReport ts proj).details.errors = [] ∧
    (generateReport ts proj).status = "completed" :=
  ⟨rfl, rfl, rfl⟩

/-- C4: for a positive batch size, `process_files` partitions the file list
into consecutive slices of that size (batch `i` is
`files[i*bs : i*bs + bs]`, so the last batch may be shorter), visits
`ceil(N/bs)` batches, and submits every file exactly once in order,
whatever the per-file outcomes are. -/
theorem C4_batch_partition (files : List String) (bs : Nat)
    (pf : String → Except String Unit × List String) (hbs : 0 < bs) :
    (chunks bs files).flatten = files ∧
    (chunks bs files).length = (files.length + bs - 1) / bs ∧
    (∀ (i : Nat) (hi : i < (chunks bs files).length),
      (chunks bs files)[i] = (files.drop (i * bs)).take bs) ∧
    (processFiles pf bs files).1.map Prod.fst = files := by
  refine ⟨chunksAux_flatten bs hbs files.length files (Nat.le_refl _),
    chunksAux_length bs hbs files.length files (Nat.le_refl _),
    fun i hi => chunksAux_getElem bs hbs files.length files i (Nat.le_refl _) hi,
    ?_⟩
  rw [processFiles_fst pf bs files hbs, List.map_map]
  simp only [Function.comp_def]
  exact List.map_id' files

/-- C4, witness: the partition property at 5 files and batch size 2. -/
theorem C4_batch_partition_witness :
    (chunks 2 (["a", "b", "c", "d", "e"] : List String)).flatten =
      ["a", "b", "c", "d", "e"] ∧
    (chunks 2 (["a", "b", "c", "d", "e"] : List String)).length =
      ((["a", "b", "c", "d", "e"] : List String).length + 2 - 1) / 2 ∧
    (∀ (i : Nat) (hi : i < (chunks 2 (["a", "b", "c", "d", "e"] : List String)).length),
      (chunks 2 (["a", "b", "c", "d", "e"] : List String))[i] =
        ((["a", "b", "c", "d", "e"] : List String).drop (i * 2)).take 2) ∧
    (processFiles (fun _ => (Except.ok (), [])) 2 ["a", "b", "c", "d", "e"]).1.map
      Prod.fst = ["a", "b", "c", "d", "e"] :=
  C4_batch_partition ["a", "b", "c", "d", "e"] 2 (fun _ => (Except.ok (), []))
    (by decide)

/-- C5, counterexample: a file matching two inclusion patterns appears twice
in the result of `_gather_files`, so discovery is not duplicate-free as the
claim states. -/
theorem C5_discovery_duplicates :
    gatherFiles demoGlob demoMatch ["*.java", "Foo.*"] [] =
      ["Foo.java", "Foo.java"] ∧
    ¬ (gatherFiles demoGlob demoMatch ["*.java", "Foo.*"] []).Nodup := by
  decide

/-- C5, amended: discovery returns the concatenation of the per-inclusion
matches with every file matching an exclusion pattern removed — a file
appears exactly when it matches some inclusion pattern and no exclusion
pattern, so exclusion strictly dominates inclusion — but the result is
neither deduplicated nor sorted. -/
theorem C5_discovery_membership (glob : String → List String)
    (m : String → String → Bool) (inc exc : List String) (f : String) :
    f ∈ gatherFiles glob m inc exc ↔
      (∃ p ∈ inc, f ∈ glob p) ∧ ∀ q ∈ exc, m f q = false := by
  rw [gatherFiles, mem_applyExcludes, mem_includeFiles]

/-- C6: per-file isolation — for a positive batch size, every file of the
list is processed and paired with its own outcome even when other files
fail, a failing file's error is caught and logged at the collection
boundary, and the dispatcher (a total function here, mirroring the
`try/except` around every `future.result()`) still submits the whole
list, so the run proceeds past processing. -/
theorem C6_soft_failure_isolation
    (pf : String → Except String Unit × List String) (bs : Nat)
    (files : List String) (f e : String) (hbs : 0 < bs) (hf : f ∈ files) :
    (f, (pf f).1) ∈ (processFiles pf bs files).1 ∧
    ((pf f).1 = Except.error e →
      ("Error processing file: " ++ e) ∈ (processFiles pf bs files).2) ∧
    (processFiles pf bs files).1.map Prod.fst = files := by
  refine ⟨?_, ?_, ?_⟩
  · rw [processFiles_fst pf bs files hbs]
    exact List.mem_map_of_mem _ hf
  · intro he
    show _ ∈ (runBatches pf (chunks bs files)).2
    apply runBatches_log_mem pf f e he
    rw [chunks, chunksAux_flatten bs hbs files.length files (Nat.le_refl _)]
    exact hf
  · rw [processFiles_fst pf bs files hbs, List.map_map]
    simp only [Function.comp_def]
    exact List.map_id' files

/-- C6, witness: the 7-file scenario with batch size 3 and `B.java`'s
transformer failing — `B.java`'s failure is recorded and logged and all 7
files are still submitted. -/
theorem C6_soft_failure_isolation_witness :
    ("B.java", (demoPf "B.java").1) ∈ (processFiles demoPf 3 demoFiles7).1 ∧
    ((demoPf "B.java").1 = Except.error "boom" →
      ("Error processing file: " ++ "boom") ∈ (processFiles demoPf 3 demoFiles7).2) ∧
    (processFiles demoPf 3 demoFiles7).1.map Prod.fst = demoFiles7 :=
  C6_soft_failure_isolation demoPf 3 demoFiles7 "B.java" "boom" (by decide)
    (by decide)

/-- C7: a configuration missing a required top-level section fails
validation with an error naming a missing section, and the pipeline then
returns that error with its state untouched — discovery and processing are
never reached; a configuration with all five sections passes validation. -/
theorem C7_config_validation (keys : List String) (s : String)
    (hs : s ∈ requiredSections) (hmiss : keys.contains s = false) :
    (∃ s2, s2 ∈ requiredSections ∧ keys.contains s2 = false ∧
      validateConfig keys =
        Except.error ("Missing required configuration section: " ++ s2) ∧
      ∀ (proc : FS → Except String Unit × FS) (st : FS),
        runMigrationPipeline proc keys st =
          (Except.error ("Missing required configuration section: " ++ s2), st)) ∧
    (∀ keys2 : List String, (∀ t ∈ requiredSections, keys2.contains t = true) →
      validateConfig keys2 = Except.ok ()) := by
  constructor
  · rcases validateLoop_error keys requiredSections ⟨s, hs, hmiss⟩ with
      ⟨s2, h1, h2, h3⟩
    refine ⟨s2, h1, h2, h3, fun proc st => ?_⟩
    simp only [runMigrationPipeline, validateConfig, h3]
  · intro keys2 hall
    exact validateLoop_ok keys2 requiredSections hall

/-- C7, witness: a configuration with only `paths` and `files` fails naming
a missing section and never runs the rest of the pipeline. -/
theorem C7_config_validation_witness :
    (∃ s2, s2 ∈ requiredSections ∧
      (["paths", "files"] : List String).contains s2 = false ∧
      validateConfig ["paths", "files"] =
        Except.error ("Missing required configuration section: " ++ s2) ∧
      ∀ (proc : FS → Except String Unit × FS) (st : FS),
        runMigrationPipeline proc ["paths", "files"] st =
          (Except.error ("Missing required configuration section: " ++ s2), st)) ∧
    (∀ keys2 : List String, (∀ t ∈ requiredSections, keys2.contains t = true) →
      validateConfig keys2 = Except.ok ()) :=
  C7_config_validation ["paths", "files"] "patterns" (by decide) (by decide)

/-- C8: `parse_size` maps `10MB`, `512KB` and `1GB` to the claimed byte
counts, accepts each unit in lower or mixed case, and fails on every string
whose unit (its alphabetic characters, upper-cased) is outside
{B, KB, MB, GB} — `10XB` in particular. -/
theorem C8_size_parsing :
    parse_size "10MB" = Except.ok 10485760 ∧
    parse_size "512KB" = Except.ok 524288 ∧
    parse_size "1GB" = Except.ok 1073741824 ∧
    parse_size "10mb" = Except.ok 10485760 ∧
    parse_size "512kB" = Except.ok 524288 ∧
    parse_size "1gb" = Except.ok 1073741824 ∧
    parse_size "64b" = Except.ok 64 ∧
    parse_size "10XB" = Except.error "KeyError: XB" ∧
    (∀ s : String, unitsTable (unitOf s) = none →
      ∃ e, parse_size s = Except.error e) := by
  refine ⟨by decide, by decide, by decide, by decide, by decide, by decide,
    by decide, by decide, ?_⟩
  intro s hu
  by_cases hd : (s.toList.filter Char.isDigit).isEmpty
  · refine ⟨"ValueError: invalid literal for int()", ?_⟩
    unfold parse_size
    rw [if_pos hd]
  · refine ⟨"KeyError: " ++ unitOf s, ?_⟩
    unfold parse_size
    rw [if_neg hd, hu]

/-- C9: a file whose suffix is none of `.java`, `.xml`, `.jsp` falls
through the dispatch of `_process_file`: no transformer runs, the call
returns success and emits no log line. -/
theorem C9_unknown_extension_noop (java xml jsp : String → Except String Unit)
    (p : String)
    (h : pathSuffix p ≠ ".java" ∧ pathSuffix p ≠ ".xml" ∧ pathSuffix p ≠ ".jsp") :
    processFile java xml jsp p = (Except.ok (), []) := by
  unfold processFile
  rw [if_neg h.1, if_neg h.2.1, if_neg h.2.2]

/-- C9, witness: `readme.txt` is a no-op even when every transformer would
fail. -/
theorem C9_unknown_extension_noop_witness :
    processFile (fun _ => Except.error "J") (fun _ => Except.error "X")
      (fun _ => Except.error "P") "docs/readme.txt" = (Except.ok (), []) :=
  C9_unknown_extension_noop (fun _ => Except.error "J")
    (fun _ => Except.error "X") (fun _ => Except.error "P") "docs/readme.txt"
    (by decide)

/-- C10: when the backup directory does not exist, the guard of `_rollback`
is false and it touches nothing, and the `except` block of
`execute_migration` re-raises the original error over the unchanged
filesystem. -/
theorem C10_missing_backup_rollback_noop (base backup : List String)
    (e : String) (fs : FS) (h : fs.pathExists backup = false) :
    rollback base backup fs = (Except.ok (), fs) ∧
    handleFailure true base backup e fs = (e, fs) := by
  have h1 : rollback base backup fs = (Except.ok (), fs) := by
    unfold rollback
    rw [h]
    simp
  refine ⟨h1, ?_⟩
  unfold handleFailure
  rw [h1]
  rfl

/-- C10, witness: a base tree with one file and no backup directory — the
rollback path is a no-op and the original error `boom` propagates. -/
theorem C10_missing_backup_rollback_noop_witness :
    rollback ["proj"] ["proj", "bak"]
        (⟨[(["proj", "A.java"], "v1")], []⟩ : FS) =
      (Except.ok (), (⟨[(["proj", "A.java"], "v1")], []⟩ : FS)) ∧
    handleFailure true ["proj"] ["proj", "bak"] "boom"
        (⟨[(["proj", "A.java"], "v1")], []⟩ : FS) =
      ("boom", (⟨[(["proj", "A.java"], "v1")], []⟩ : FS)) :=
  C10_missing_backup_rollback_noop ["proj"] ["proj", "bak"] "boom"
    (⟨[(["proj", "A.java"], "v1")], []⟩ : FS) (by decide)
